import Mathlib

/-!
Verification of the OpenCtx provider aggregation engine (client library):
selector matching, provider client gating, the provider connection pool,
and the client facade's provider-resolution pipeline, shallowly embedded
in Lean from the TypeScript source.
-/

namespace OpenCtx

/-! ### Data model (from `@openctx/protocol` types in `src/web/content/docs/protocol.mdx`) -/

/-- A selector condition from `CapabilitiesResult.selector`: an optional `path`
glob and an optional `contentContains` literal string. -/
structure Selector where
  path : Option String
  contentContains : Option String
deriving DecidableEq, Repr

/-- `CapabilitiesResult`: an optional array of selectors. `none` means the
provider applies to every resource; `some []` means it never applies. -/
structure CapabilitiesResult where
  selector : Option (List Selector)
deriving DecidableEq, Repr

/-- A resource descriptor seen by the selector matcher: the resource URI and
its (possibly absent) content. -/
structure Resource where
  uri : String
  content : Option String
deriving DecidableEq, Repr

/-- `AnnotationsParams` from the protocol: the resource URI and content. -/
structure AnnotationsParams where
  uri : String
  content : String
deriving DecidableEq, Repr

/-- `ItemsParams` from the protocol: the resource URI and content. -/
structure ItemsParams where
  uri : String
  content : String
deriving DecidableEq, Repr

/-- `Item` from the protocol (fields beyond `title` are optional and opaque to
the aggregation logic). -/
structure Item where
  title : String
  url : Option String := none
deriving DecidableEq, Repr

/-- `Annotation` from the protocol: an item attached to a resource URI with an
optional range (the range payload is opaque to the client logic). -/
structure Annotation where
  uri : String
  item : Item
deriving DecidableEq, Repr

/-- Provider-specific settings: opaque to this core, passed through untouched. -/
def ProviderSettings := String
deriving instance DecidableEq, Repr, Inhabited for ProviderSettings

abbrev ItemsResult := List Item
abbrev AnnotationsResult := List Annotation

/-! ### Selector matcher -/

/-- Does the list `n` occur contiguously inside the list `h`? (Literal
substring search, used for the `contentContains` condition.) -/
def charsStartWith : List Char → List Char → Bool
  | [], _ => true
  | _ :: _, [] => false
  | a :: as, b :: bs => a == b && charsStartWith as bs

/-- `hasSub n h` holds when `n` occurs contiguously somewhere in `h`. -/
def hasSub (n : List Char) : List Char → Bool
  | [] => n.isEmpty
  | b :: bs => charsStartWith n (b :: bs) || hasSub n bs

/-- Literal substring test on strings. -/
def strContains (needle hay : String) : Bool :=
  hasSub needle.toList hay.toList

/-- Modelled from the spec: the selector-matching primitive
(`matchSelectors` in `providerClient/selector.ts`, not present in the source
excerpt; its contract is given in `protocol.mdx` and spec section 4.1).
One selector is satisfied when every present condition holds: `path` tested
against the resource URI by the host glob primitive (the glob itself is an
external collaborator, taken as a parameter), and `contentContains` tested as
a literal substring of the resource content, failing closed when content is
absent. -/
def matchSelector (glob : String → String → Bool) (s : Selector) (r : Resource) : Bool :=
  (match s.path with
    | none => true
    | some p => glob p r.uri) &&
  (match s.contentContains with
    | none => true
    | some c =>
      match r.content with
      | none => false
      | some content => strContains c content)

/-- Modelled from the spec: `matchSelectors(selector)` applied to a resource.
`undefined` selector matches every resource; the empty array matches none;
a non-empty array requires every selector in it to be satisfied (AND across
the array, per the documented contract). -/
def matchSelectors (glob : String → String → Bool) (selector : Option (List Selector))
    (r : Resource) : Bool :=
  match selector with
  | none => true
  | some [] => false
  | some (s :: rest) => (s :: rest).all fun sel => matchSelector glob sel r

/-! ### Claims about the selector matcher -/

/-- C1: for every non-empty selector array and every resource, the matcher
returns `true` iff every selector in the array is individually satisfied
(AND across the array); within one selector every present condition must
hold: the `path` glob tested against the resource URI, and `contentContains`
tested as a literal substring of the content, failing closed when content is
absent. -/
theorem c1_selector_and_semantics (glob : String → String → Bool)
    (sels : List Selector) (hne : sels ≠ []) (r : Resource) :
    matchSelectors glob (some sels) r = true ↔
      ∀ s ∈ sels,
        (∀ p, s.path = some p → glob p r.uri = true) ∧
        (∀ c, s.contentContains = some c →
          ∃ content, r.content = some content ∧ strContains c content = true) := by
  cases sels with
  | nil => exact absurd rfl hne
  | cons s rest =>
    simp only [matchSelectors, List.all_eq_true]
    constructor
    · intro h t ht
      have hm := h t ht
      simp only [matchSelector, Bool.and_eq_true] at hm
      obtain ⟨hp, hc⟩ := hm
      constructor
      · intro p hpath
        rw [hpath] at hp
        exact hp
      · intro c hcc
        rw [hcc] at hc
        cases hcontent : r.content with
        | none => rw [hcontent] at hc; exact absurd hc (by simp)
        | some content =>
          rw [hcontent] at hc
          exact ⟨content, rfl, hc⟩
    · intro h t ht
      obtain ⟨hp, hc⟩ := h t ht
      simp only [matchSelector, Bool.and_eq_true]
      constructor
      · cases hpath : t.path with
        | none => rfl
        | some p => exact hp p hpath
      · cases hcc : t.contentContains with
        | none => rfl
        | some c =>
          obtain ⟨content, hcontent, hsub⟩ := hc c hcc
          rw [hcontent]
          exact hsub

/-- Witness for C1 at a concrete input: one non-empty selector list with both
conditions present, matched against a concrete resource. -/
theorem c1_selector_and_semantics_witness :
    ([Selector.mk (some "p") (some "bc")] ≠ []) ∧
      (matchSelectors (fun p u => p == u) (some [Selector.mk (some "p") (some "bc")])
          (Resource.mk "p" (some "abcd")) = true ↔
        ∀ s ∈ [Selector.mk (some "p") (some "bc")],
          (∀ q, s.path = some q → (q == "p") = true) ∧
          (∀ c, s.contentContains = some c →
            ∃ content, (Resource.mk "p" (some "abcd")).content = some content ∧
              strContains c content = true)) :=
  ⟨by decide, c1_selector_and_semantics (fun p u => p == u)
    [Selector.mk (some "p") (some "bc")] (by decide) (Resource.mk "p" (some "abcd"))⟩

/-! ### Provider client (`src/lib/client/src/providerClient/createProviderClient.ts`)

The transport (`createTransport`) is an external collaborator from the
provider client's point of view: the client wraps whatever transport it is
given. It is modelled as a record of fallible methods. -/

/-- A transport/provider failure (a rejected promise or `{error}` response),
carried as its message. -/
abbrev Err := String

/-- The provider transport as the provider client sees it: three fallible
methods `capabilities`, `items`, `annotations`. -/
structure Transport where
  capabilities : ProviderSettings → Except Err CapabilitiesResult
  items : ItemsParams → ProviderSettings → Except Err ItemsResult
  annotations : AnnotationsParams → ProviderSettings → Except Err AnnotationsResult

/-- Outcome of one provider-client call: the returned value or propagated
failure, the diagnostic log produced, and how many times the transport's
`annotations` method was invoked during the call. -/
structure ClientRun (α : Type) where
  result : Except Err α
  log : List String
  transportAnnotationsCalls : Nat

/-- `ProviderClient.annotations` from `createProviderClient.ts`: fetch
capabilities (propagating failure), apply the selector matcher to the params;
on rejection return `null` (here `none`) without calling the transport's
`annotations`; on acceptance forward the transport's `annotations` result or
failure unchanged. `hasLogger` records whether a logger was supplied; logging
is modelled as an appended message list. -/
def clientAnnotations (glob : String → String → Bool) (transport : Transport)
    (hasLogger : Bool) (params : AnnotationsParams) (settings : ProviderSettings) :
    ClientRun (Option AnnotationsResult) :=
  match transport.capabilities settings with
  | .error e =>
    { result := .error e
      log := if hasLogger then
          ["checking provider capabilities", "failed to get provider capabilities: " ++ e]
        else []
      transportAnnotationsCalls := 0 }
  | .ok capabilities =>
    let startLog := if hasLogger then
        ["checking provider capabilities", "received capabilities"]
      else []
    let capable := matchSelectors glob capabilities.selector ⟨params.uri, some params.content⟩
    if capable then
      match transport.annotations params settings with
      | .ok r =>
        { result := .ok (some r), log := startLog, transportAnnotationsCalls := 1 }
      | .error e =>
        { result := .error e
          log := startLog ++ (if hasLogger then ["failed to get annotations: " ++ e] else [])
          transportAnnotationsCalls := 1 }
    else
      { result := .ok none
        log := startLog ++
          (if hasLogger then
            ["skipping items for " ++ params.uri ++
              " because it did not match the provider selector"]
          else [])
        transportAnnotationsCalls := 0 }

/-- `ProviderClient.items` from `createProviderClient.ts`: delegate to the
transport unconditionally (no selector gating), logging and re-propagating a
failure. -/
def clientItems (transport : Transport) (hasLogger : Bool) (params : ItemsParams)
    (settings : ProviderSettings) : ClientRun ItemsResult :=
  match transport.items params settings with
  | .ok r => { result := .ok r, log := [], transportAnnotationsCalls := 0 }
  | .error e =>
    { result := .error e
      log := if hasLogger then ["failed to get items: " ++ e] else []
      transportAnnotationsCalls := 0 }

/-- C3: when capability discovery succeeds and the selector matcher rejects
the resource, `annotations` returns `null` (`none`) — which is distinct from
an empty annotation list — and the transport's `annotations` method is never
invoked. -/
theorem c3_selector_reject_short_circuits (glob : String → String → Bool)
    (transport : Transport) (hasLogger : Bool) (params : AnnotationsParams)
    (settings : ProviderSettings) (caps : CapabilitiesResult)
    (hcap : transport.capabilities settings = .ok caps)
    (hrej : matchSelectors glob caps.selector ⟨params.uri, some params.content⟩ = false) :
    (clientAnnotations glob transport hasLogger params settings).result = .ok none ∧
    (Except.ok none : Except Err (Option AnnotationsResult)) ≠ .ok (some []) ∧
    (clientAnnotations glob transport hasLogger params settings).transportAnnotationsCalls = 0 := by
  unfold clientAnnotations
  rw [hcap]
  simp [hrej]

/-- Witness for C3 at a concrete input: a transport whose capabilities call
returns the empty selector array (which the matcher always rejects). -/
theorem c3_selector_reject_short_circuits_witness :
    (Transport.mk (fun _ => .ok ⟨some []⟩) (fun _ _ => .ok [])
        (fun _ _ => .ok [⟨"file:///a.go", ⟨"t", none⟩⟩])).capabilities "s" =
        .ok ⟨some []⟩ ∧
    matchSelectors (fun _ _ => true) (CapabilitiesResult.mk (some [])).selector
        ⟨(AnnotationsParams.mk "file:///a.go" "content").uri,
          some (AnnotationsParams.mk "file:///a.go" "content").content⟩ = false ∧
    ((clientAnnotations (fun _ _ => true)
        (Transport.mk (fun _ => .ok ⟨some []⟩) (fun _ _ => .ok [])
          (fun _ _ => .ok [⟨"file:///a.go", ⟨"t", none⟩⟩])) true
        (AnnotationsParams.mk "file:///a.go" "content") "s").result = .ok none ∧
      (Except.ok none : Except Err (Option AnnotationsResult)) ≠ .ok (some []) ∧
      (clientAnnotations (fun _ _ => true)
        (Transport.mk (fun _ => .ok ⟨some []⟩) (fun _ _ => .ok [])
          (fun _ _ => .ok [⟨"file:///a.go", ⟨"t", none⟩⟩])) true
        (AnnotationsParams.mk "file:///a.go" "content") "s").transportAnnotationsCalls = 0) :=
  ⟨rfl, rfl, c3_selector_reject_short_circuits (fun _ _ => true) _ true
    (AnnotationsParams.mk "file:///a.go" "content") "s" ⟨some []⟩ rfl rfl⟩

/-- C4: when the capability-discovery call inside `annotations` fails, the
call rejects with that same failure; it is never converted into `null` or an
empty list. -/
theorem c4_capability_failure_propagates (glob : String → String → Bool)
    (transport : Transport) (hasLogger : Bool) (params : AnnotationsParams)
    (settings : ProviderSettings) (e : Err)
    (hcap : transport.capabilities settings = .error e) :
    (clientAnnotations glob transport hasLogger params settings).result = .error e := by
  unfold clientAnnotations
  rw [hcap]

/-- Witness for C4 at a concrete input: a transport whose capabilities call
fails. -/
theorem c4_capability_failure_propagates_witness :
    (Transport.mk (fun _ => .error "boom") (fun _ _ => .ok []) (fun _ _ => .ok [])).capabilities
        "s" = .error "boom" ∧
    (clientAnnotations (fun _ _ => true)
      (Transport.mk (fun _ => .error "boom") (fun _ _ => .ok []) (fun _ _ => .ok [])) false
      (AnnotationsParams.mk "file:///a.go" "content") "s").result = .error "boom" :=
  ⟨rfl, c4_capability_failure_propagates (fun _ _ => true) _ false
    (AnnotationsParams.mk "file:///a.go" "content") "s" "boom" rfl⟩

/-- C9: supplying or omitting a logger never alters the value returned or the
failure raised by `ProviderClient.items` / `ProviderClient.annotations`, nor
whether the transport's `annotations` method is invoked — logging is a pure
write-only effect. -/
theorem c9_logger_never_alters_result (glob : String → String → Bool)
    (transport : Transport) (params : AnnotationsParams) (iparams : ItemsParams)
    (settings : ProviderSettings) :
    (clientAnnotations glob transport true params settings).result =
      (clientAnnotations glob transport false params settings).result ∧
    (clientAnnotations glob transport true params settings).transportAnnotationsCalls =
      (clientAnnotations glob transport false params settings).transportAnnotationsCalls ∧
    (clientItems transport true iparams settings).result =
      (clientItems transport false iparams settings).result := by
  unfold clientAnnotations clientItems
  cases transport.capabilities settings with
  | error e => cases transport.items iparams settings <;> simp
  | ok caps =>
    cases hcapable : matchSelectors glob caps.selector ⟨params.uri, some params.content⟩ <;>
      cases transport.annotations params settings <;>
      cases transport.items iparams settings <;>
      simp [hcapable]

/-! ### Provider connection pool (`createProviderPool` in `src/unnamed/part_000`)

The pool is an `LRUCache<string, ProviderClient>` with
`ttl: 1000 * 60 * 5` keyed by `JSON.stringify({providerUri, authInfo})`
(structural equality of the key). Client instances are modelled by the
order in which they are constructed (`nextId`), so "the identical instance"
is "the same id" and "a newly constructed instance" is "the next unused id". -/

/-- `AuthInfo` from the client: optional HTTP headers. -/
structure AuthInfo where
  headers : Option (List (String × String))
deriving DecidableEq, Repr

/-- `ProviderCacheKey`: provider URI plus optional auth info; compared
structurally (the code compares `JSON.stringify` of this object). -/
structure ProviderCacheKey where
  providerUri : String
  authInfo : Option AuthInfo
deriving DecidableEq, Repr

/-- The pool's TTL: `1000 * 60 * 5` milliseconds (5 minutes). -/
def poolTtl : Nat := 1000 * 60 * 5

/-- One cache entry: key, the constructed client (by id), and the insertion
time (lru-cache stores a start timestamp on `set`). -/
structure PoolEntry where
  key : ProviderCacheKey
  clientId : Nat
  start : Nat
deriving DecidableEq, Repr

/-- The pool's state: current entries (at most one per key) and the id the
next constructed client will get. -/
structure PoolState where
  entries : List PoolEntry
  nextId : Nat
deriving DecidableEq, Repr

/-- lru-cache staleness: an entry is stale once `now - start > ttl`, so it is
live while `now ≤ start + ttl`. -/
def entryLive (now : Nat) (e : PoolEntry) : Bool :=
  now ≤ e.start + poolTtl

/-- `cache.get`: the stored client for `key`, provided its entry is live at
`now` (lru-cache returns `undefined` for stale entries; `ttlAutopurge` also
removes them on a timer, which no `get` can observe as live either way). -/
def poolGet (st : PoolState) (now : Nat) (key : ProviderCacheKey) : Option Nat :=
  (st.entries.find? fun e => e.key == key && entryLive now e).map fun e => e.clientId

/-- `getOrCreate` from `createProviderPool`: return the cached live client if
one exists, otherwise construct a new client, store it with a fresh TTL
(replacing any stale entry for the key), and return it. -/
def getOrCreate (st : PoolState) (now : Nat) (key : ProviderCacheKey) : Nat × PoolState :=
  match poolGet st now key with
  | some cid => (cid, st)
  | none =>
    (st.nextId,
      { entries := ⟨key, st.nextId, now⟩ :: st.entries.filter fun e => !(e.key == key)
        nextId := st.nextId + 1 })

/-- C2: for two `getOrCreate` calls with structurally equal keys, where the
first call constructs the entry (no live entry existed) and the second call
happens at `t2 ≥ t1`: while the entry is within the 5-minute TTL the second
call returns the identical client (same id, pool unchanged); after the TTL
expires it returns a newly constructed client (the next unused id, distinct
from the first). -/
theorem c2_pool_reuse_within_ttl (st : PoolState) (k1 k2 : ProviderCacheKey)
    (hkeys : k1 = k2) (t1 t2 : Nat)
    (hfresh : poolGet st t1 k1 = none) (h12 : t1 ≤ t2) :
    ((t2 ≤ t1 + poolTtl →
        (getOrCreate (getOrCreate st t1 k1).2 t2 k2).1 = (getOrCreate st t1 k1).1 ∧
        (getOrCreate (getOrCreate st t1 k1).2 t2 k2).2 = (getOrCreate st t1 k1).2) ∧
      (t1 + poolTtl < t2 →
        (getOrCreate (getOrCreate st t1 k1).2 t2 k2).1 = (getOrCreate st t1 k1).2.nextId ∧
        (getOrCreate (getOrCreate st t1 k1).2 t2 k2).1 ≠ (getOrCreate st t1 k1).1)) := by
  subst hkeys
  have hstep : getOrCreate st t1 k1 =
      (st.nextId,
        { entries := ⟨k1, st.nextId, t1⟩ :: st.entries.filter fun e => !(e.key == k1)
          nextId := st.nextId + 1 }) := by
    unfold getOrCreate
    rw [hfresh]
  rw [hstep]
  constructor
  · intro hlive
    have hget : poolGet
        { entries := ⟨k1, st.nextId, t1⟩ :: st.entries.filter fun e => !(e.key == k1)
          nextId := st.nextId + 1 } t2 k1 = some st.nextId := by
      unfold poolGet
      rw [List.find?_cons_of_pos]
      · rfl
      · simp [entryLive, hlive]
    unfold getOrCreate
    rw [hget]
    exact ⟨rfl, rfl⟩
  · intro hstale
    have hget : poolGet
        { entries := ⟨k1, st.nextId, t1⟩ :: st.entries.filter fun e => !(e.key == k1)
          nextId := st.nextId + 1 } t2 k1 = none := by
      have hfind : List.find? (fun e => e.key == k1 && entryLive t2 e)
          (List.filter (fun e => !(e.key == k1)) st.entries) = none := by
        rw [List.find?_eq_none]
        intro x hx
        have hxk : (x.key == k1) = false := by
          have := (List.mem_filter.mp hx).2
          simpa using this
        simp [hxk]
      unfold poolGet
      rw [List.find?_cons_of_neg]
      · rw [hfind]
        rfl
      · simp [entryLive]
        omega
    unfold getOrCreate
    rw [hget]
    refine ⟨rfl, ?_⟩
    simp

/-- Witness for C2 at a concrete run: an empty pool, one key, reuse at
`t2 = 1000` and reconstruction at `t2 = poolTtl + 1`. -/
theorem c2_pool_reuse_within_ttl_witness :
    (ProviderCacheKey.mk "https://p.example/x" none = ProviderCacheKey.mk "https://p.example/x" none) ∧
    poolGet (PoolState.mk [] 0) 0 (ProviderCacheKey.mk "https://p.example/x" none) = none ∧
    (0 ≤ 1000) ∧ (1000 ≤ 0 + poolTtl) ∧
    ((getOrCreate (getOrCreate (PoolState.mk [] 0) 0
        (ProviderCacheKey.mk "https://p.example/x" none)).2 1000
        (ProviderCacheKey.mk "https://p.example/x" none)).1 =
      (getOrCreate (PoolState.mk [] 0) 0 (ProviderCacheKey.mk "https://p.example/x" none)).1) ∧
    (0 + poolTtl < 300001) ∧
    ((getOrCreate (getOrCreate (PoolState.mk [] 0) 0
        (ProviderCacheKey.mk "https://p.example/x" none)).2 300001
        (ProviderCacheKey.mk "https://p.example/x" none)).1 ≠
      (getOrCreate (PoolState.mk [] 0) 0 (ProviderCacheKey.mk "https://p.example/x" none)).1) :=
  ⟨rfl, rfl, by decide, by decide,
    ((c2_pool_reuse_within_ttl (PoolState.mk [] 0) _ _ rfl 0 1000 rfl (by decide)).1
      (by decide)).1,
    by decide,
    ((c2_pool_reuse_within_ttl (PoolState.mk [] 0) _ _ rfl 0 300001 rfl (by decide)).2
      (by decide)).2⟩

/-! ### Configuration and the client facade's provider resolution
(`createClient` / `providerClientsWithSettings` in `src/unnamed/part_000`) -/

/-- The host-facing raw configuration input
`{enable?: bool, debug?: bool, providers?: {[uri]: settings | false}}`; a
provider entry's `false` sentinel is modelled as `none`. -/
structure ConfigurationUserInput where
  enable : Option Bool := none
  debug : Option Bool := none
  providers : Option (List (String × Option ProviderSettings)) := none
deriving DecidableEq, Repr

/-- The resolved, typed configuration. -/
structure Configuration where
  enable : Bool
  debug : Bool
  providers : List (String × ProviderSettings)
deriving DecidableEq, Repr

/-- Modelled from the spec: `configurationFromUserInput` (`configuration.ts`,
not in the source excerpt). Missing flags default to false; the resolved
provider list is the ordered entries of the providers map whose value is not
the falsey sentinel. -/
def configurationFromUserInput (c : ConfigurationUserInput) : Configuration where
  enable := c.enable.getD false
  debug := c.debug.getD false
  providers := (c.providers.getD []).filterMap fun p =>
    match p.2 with
    | none => none
    | some s => some (p.1, s)

/-- JS truthiness of `config.enable` as tested by `if (!config.enable)`:
truthy exactly when the flag is present and `true`. -/
def enableTruthy (c : ConfigurationUserInput) : Bool :=
  c.enable.getD false

/-- The facade's gating step
`if (!config.enable) { config = { ...config, providers: {} } }` as a value
transformer. -/
def gateConfig (c : ConfigurationUserInput) : ConfigurationUserInput :=
  if enableTruthy c then c else { c with providers := some [] }

/-- The environment hooks the provider-resolution pipeline consumes: the
optional per-provider credential hook `env.authInfo` (returning auth info,
`null`, or failing). -/
structure ClientEnvModel where
  authInfo : Option (String → Except Err (Option AuthInfo))

/-- Per-provider credential resolution:
`env.authInfo ? from(env.authInfo(providerUri)) : of(null)`. -/
def resolveAuth (env : ClientEnvModel) (uri : String) : Except Err (Option AuthInfo) :=
  match env.authInfo with
  | none => .ok none
  | some f => f uri

/-- Result of resolving the provider list: the `(client, settings)` pairs
handed to the aggregation engine, the pool state after resolution, how many
clients were requested from the pool, and the log produced. -/
structure ResolveResult where
  clients : List (Nat × ProviderSettings)
  pool : PoolState
  poolCalls : Nat
  log : List String
deriving DecidableEq, Repr

/-- The per-provider arm of `providerClientsWithSettings`: resolve
credentials for each configured provider (`catchError` logs a failure and
yields `null`, later filtered out), obtain the client from the pool for the
`(providerUri, authInfo)` key, and keep provider order. -/
def resolveProviders (env : ClientEnvModel) (now : Nat) :
    PoolState → List (String × ProviderSettings) → ResolveResult
  | st, [] => ⟨[], st, 0, []⟩
  | st, (uri, settings) :: rest =>
    match resolveAuth env uri with
    | .error e =>
      let r := resolveProviders env now st rest
      ⟨r.clients, r.pool, r.poolCalls,
        ("Error creating provider client for " ++ uri ++ ": " ++ e) :: r.log⟩
    | .ok auth =>
      let g := getOrCreate st now ⟨uri, auth⟩
      let r := resolveProviders env now g.2 rest
      ⟨(g.1, settings) :: r.clients, r.pool, r.poolCalls + 1, r.log⟩

/-- `providerClientsWithSettings`: gate the configuration on the enable
flag, resolve it, and (only when the provider list is non-empty) resolve
every provider; an empty list yields `of([])` with no provider work. -/
def providerClientsWithSettings (env : ClientEnvModel) (now : Nat) (st : PoolState)
    (config : ConfigurationUserInput) : ResolveResult :=
  let cfg := configurationFromUserInput (gateConfig config)
  if cfg.providers.length > 0 then resolveProviders env now st cfg.providers
  else ⟨[], st, 0, []⟩

/-- Modelled from the spec: the aggregation engine's combined snapshot
(`observeItems` in `api.ts`, not in the source excerpt): the concatenation of
every resolved provider's current contribution, in provider order. -/
def observeItemsSnapshot (clients : List (Nat × ProviderSettings))
    (contribution : Nat → List Item) : List Item :=
  (clients.map fun c => contribution c.1).flatten

/-- C5: when the top-level enable flag is `false`, the provider list is
treated as empty: no client is requested from the pool (the pool is
untouched), zero provider calls are issued, and the combined result is the
empty list, regardless of the configured providers. -/
theorem c5_disabled_config_short_circuits (env : ClientEnvModel) (now : Nat)
    (st : PoolState) (config : ConfigurationUserInput)
    (hdis : config.enable = some false) (contribution : Nat → List Item) :
    (providerClientsWithSettings env now st config).clients = [] ∧
    (providerClientsWithSettings env now st config).pool = st ∧
    (providerClientsWithSettings env now st config).poolCalls = 0 ∧
    observeItemsSnapshot (providerClientsWithSettings env now st config).clients
      contribution = [] := by
  have hgate : gateConfig config = { config with providers := some [] } := by
    unfold gateConfig enableTruthy
    rw [hdis]
    rfl
  unfold providerClientsWithSettings
  rw [hgate]
  simp [configurationFromUserInput, observeItemsSnapshot]

/-- Witness for C5 at a concrete input: a disabled configuration listing two
providers. -/
theorem c5_disabled_config_short_circuits_witness :
    (ConfigurationUserInput.mk (some false) (some true)
        (some [("https://p.example/a", some "sa"), ("https://p.example/b", some "sb")])).enable =
      some false ∧
    ((providerClientsWithSettings ⟨none⟩ 0 (PoolState.mk [] 0)
        (ConfigurationUserInput.mk (some false) (some true)
          (some [("https://p.example/a", some "sa"), ("https://p.example/b", some "sb")]))).clients =
        [] ∧
      (providerClientsWithSettings ⟨none⟩ 0 (PoolState.mk [] 0)
        (ConfigurationUserInput.mk (some false) (some true)
          (some [("https://p.example/a", some "sa"), ("https://p.example/b", some "sb")]))).pool =
        PoolState.mk [] 0 ∧
      (providerClientsWithSettings ⟨none⟩ 0 (PoolState.mk [] 0)
        (ConfigurationUserInput.mk (some false) (some true)
          (some [("https://p.example/a", some "sa"), ("https://p.example/b", some "sb")]))).poolCalls =
        0 ∧
      observeItemsSnapshot (providerClientsWithSettings ⟨none⟩ 0 (PoolState.mk [] 0)
          (ConfigurationUserInput.mk (some false) (some true)
            (some [("https://p.example/a", some "sa"), ("https://p.example/b", some "sb")]))).clients
        (fun _ => [⟨"t", none⟩]) = []) :=
  ⟨rfl, c5_disabled_config_short_circuits ⟨none⟩ 0 (PoolState.mk [] 0) _ rfl
    (fun _ => [⟨"t", none⟩])⟩

/-- C7: a credential-resolution failure for one provider only removes that
provider from the cycle's list and logs the error: the resolved clients and
pool state are exactly those of the run without the failing provider, and the
resolution still produces a result (it is not aborted). -/
theorem c7_credential_failure_isolated (env : ClientEnvModel)
    (f : String → Except Err (Option AuthInfo)) (henv : env.authInfo = some f)
    (now : Nat) (st : PoolState) (l1 l2 : List (String × ProviderSettings))
    (uri : String) (settings : ProviderSettings) (e : Err) (hfail : f uri = .error e) :
    (resolveProviders env now st (l1 ++ (uri, settings) :: l2)).clients =
      (resolveProviders env now st (l1 ++ l2)).clients ∧
    (resolveProviders env now st (l1 ++ (uri, settings) :: l2)).pool =
      (resolveProviders env now st (l1 ++ l2)).pool ∧
    (resolveProviders env now st (l1 ++ (uri, settings) :: l2)).poolCalls =
      (resolveProviders env now st (l1 ++ l2)).poolCalls ∧
    ("Error creating provider client for " ++ uri ++ ": " ++ e) ∈
      (resolveProviders env now st (l1 ++ (uri, settings) :: l2)).log := by
  have hauth : resolveAuth env uri = .error e := by
    unfold resolveAuth
    rw [henv]
    exact hfail
  induction l1 generalizing st with
  | nil =>
    simp only [List.nil_append]
    simp only [resolveProviders, hauth]
    refine ⟨trivial, trivial, trivial, ?_⟩
    exact List.mem_cons_self _ _
  | cons hd tl ih =>
    obtain ⟨hduri, hdsettings⟩ := hd
    simp only [List.cons_append]
    cases hhd : resolveAuth env hduri with
    | error e' =>
      simp only [resolveProviders, hhd]
      have h3 := ih st
      exact ⟨h3.1, h3.2.1, h3.2.2.1, List.mem_cons_of_mem _ h3.2.2.2⟩
    | ok auth =>
      simp only [resolveProviders, hhd]
      have h3 := ih (getOrCreate st now ⟨hduri, auth⟩).2
      exact ⟨by rw [h3.1], h3.2.1, by rw [h3.2.2.1], h3.2.2.2⟩

/-- Witness for C7 at a concrete input: three providers of which the middle
one's credential hook fails. -/
theorem c7_credential_failure_isolated_witness :
    (ClientEnvModel.mk (some fun u => if u = "https://p.example/bad" then .error "denied"
        else .ok none)).authInfo =
      some (fun u => if u = "https://p.example/bad" then .error "denied" else .ok none) ∧
    (if "https://p.example/bad" = "https://p.example/bad" then
        (.error "denied" : Except Err (Option AuthInfo)) else .ok none) = .error "denied" ∧
    ((resolveProviders (ClientEnvModel.mk (some fun u =>
          if u = "https://p.example/bad" then .error "denied" else .ok none)) 0
        (PoolState.mk [] 0)
        ([("https://p.example/a", "sa")] ++ ("https://p.example/bad", "sx") ::
          [("https://p.example/b", "sb")])).clients =
      (resolveProviders (ClientEnvModel.mk (some fun u =>
          if u = "https://p.example/bad" then .error "denied" else .ok none)) 0
        (PoolState.mk [] 0)
        ([("https://p.example/a", "sa")] ++ [("https://p.example/b", "sb")])).clients ∧
      (resolveProviders (ClientEnvModel.mk (some fun u =>
          if u = "https://p.example/bad" then .error "denied" else .ok none)) 0
        (PoolState.mk [] 0)
        ([("https://p.example/a", "sa")] ++ ("https://p.example/bad", "sx") ::
          [("https://p.example/b", "sb")])).pool =
      (resolveProviders (ClientEnvModel.mk (some fun u =>
          if u = "https://p.example/bad" then .error "denied" else .ok none)) 0
        (PoolState.mk [] 0)
        ([("https://p.example/a", "sa")] ++ [("https://p.example/b", "sb")])).pool ∧
      (resolveProviders (ClientEnvModel.mk (some fun u =>
          if u = "https://p.example/bad" then .error "denied" else .ok none)) 0
        (PoolState.mk [] 0)
        ([("https://p.example/a", "sa")] ++ ("https://p.example/bad", "sx") ::
          [("https://p.example/b", "sb")])).poolCalls =
      (resolveProviders (ClientEnvModel.mk (some fun u =>
          if u = "https://p.example/bad" then .error "denied" else .ok none)) 0
        (PoolState.mk [] 0)
        ([("https://p.example/a", "sa")] ++ [("https://p.example/b", "sb")])).poolCalls ∧
      ("Error creating provider client for " ++ "https://p.example/bad" ++ ": " ++ "denied") ∈
      (resolveProviders (ClientEnvModel.mk (some fun u =>
          if u = "https://p.example/bad" then .error "denied" else .ok none)) 0
        (PoolState.mk [] 0)
        ([("https://p.example/a", "sa")] ++ ("https://p.example/bad", "sx") ::
          [("https://p.example/b", "sb")])).log) :=
  ⟨rfl, by rw [if_pos rfl],
    c7_credential_failure_isolated
      (ClientEnvModel.mk (some fun u =>
        if u = "https://p.example/bad" then .error "denied" else .ok none))
      (fun u => if u = "https://p.example/bad" then .error "denied" else .ok none) rfl 0
      (PoolState.mk [] 0) [("https://p.example/a", "sa")] [("https://p.example/b", "sb")]
      "https://p.example/bad" "sx" "denied" (by beta_reduce; rw [if_pos rfl])⟩

/-! ### Frame property of the enable-gating step (C10)

To state that the host's configuration object is not mutated, objects are
given explicit addresses in a small heap; the JS spread
`{ ...config, providers: {} }` allocates a fresh object and rebinds only the
local variable. -/

/-- A heap of configuration objects, addressed by `Nat`. -/
def ConfigHeap := Nat → ConfigurationUserInput

/-- The gating step of `providerClientsWithSettings` / `itemsChanges` as it
acts on the host's configuration object: read the object at `host`; when
`config.enable` is falsy, allocate at `fresh` a shallow copy with an empty
providers map and continue with it; otherwise continue with the host's
object. Returns the heap after the step and the address the pipeline
continues with. -/
def gateConfigStep (h : ConfigHeap) (host fresh : Nat) : ConfigHeap × Nat :=
  if enableTruthy (h host) then (h, host)
  else
    (fun a => if a = fresh then { h host with providers := some [] } else h a, fresh)

/-- C10: the gating step never writes to any pre-existing object — in
particular the host's configuration object is unchanged, all fields intact —
and when the enable flag is falsy it continues with a fresh shallow copy
whose providers map is empty and whose other fields equal the host
object's. -/
theorem c10_gate_copies_and_never_mutates (h : ConfigHeap) (host fresh : Nat)
    (hne : host ≠ fresh) :
    (∀ a, a ≠ fresh → (gateConfigStep h host fresh).1 a = h a) ∧
    (enableTruthy (h host) = false →
      (gateConfigStep h host fresh).2 = fresh ∧
      ((gateConfigStep h host fresh).1 fresh).providers = some [] ∧
      ((gateConfigStep h host fresh).1 fresh).enable = (h host).enable ∧
      ((gateConfigStep h host fresh).1 fresh).debug = (h host).debug ∧
      (gateConfigStep h host fresh).1 host = h host) := by
  unfold gateConfigStep
  cases hen : enableTruthy (h host) with
  | true =>
    exact ⟨fun a _ => rfl, fun hdis => absurd hdis (by simp)⟩
  | false =>
    exact ⟨fun a ha => by simp [ha], fun _ =>
      ⟨rfl, by simp, by simp, by simp, by simp [hne]⟩⟩

/-- Witness for C10 at a concrete heap: a disabled two-provider configuration
at address 0 and a free address 1. -/
theorem c10_gate_copies_and_never_mutates_witness :
    ((0 : Nat) ≠ 1) ∧
    (∀ a, a ≠ 1 →
      (gateConfigStep (fun _ => ConfigurationUserInput.mk (some false) (some true)
        (some [("https://p.example/a", some "sa")])) 0 1).1 a =
      (fun _ => ConfigurationUserInput.mk (some false) (some true)
        (some [("https://p.example/a", some "sa")])) a) ∧
    enableTruthy ((fun _ => ConfigurationUserInput.mk (some false) (some true)
      (some [("https://p.example/a", some "sa")])) 0) = false ∧
    ((gateConfigStep (fun _ => ConfigurationUserInput.mk (some false) (some true)
        (some [("https://p.example/a", some "sa")])) 0 1).1 1).providers = some [] ∧
    (gateConfigStep (fun _ => ConfigurationUserInput.mk (some false) (some true)
        (some [("https://p.example/a", some "sa")])) 0 1).1 0 =
      ConfigurationUserInput.mk (some false) (some true)
        (some [("https://p.example/a", some "sa")]) :=
  ⟨by decide,
    (c10_gate_copies_and_never_mutates
      (fun _ => ConfigurationUserInput.mk (some false) (some true)
        (some [("https://p.example/a", some "sa")])) 0 1 (by decide)).1,
    rfl,
    ((c10_gate_copies_and_never_mutates
      (fun _ => ConfigurationUserInput.mk (some false) (some true)
        (some [("https://p.example/a", some "sa")])) 0 1 (by decide)).2 rfl).2.1,
    ((c10_gate_copies_and_never_mutates
      (fun _ => ConfigurationUserInput.mk (some false) (some true)
        (some [("https://p.example/a", some "sa")])) 0 1 (by decide)).2 rfl).2.2.2.2⟩

/-! ### The pull-style `Client.items` (C6)

`src/unnamed/part_000` holds two versions of the client facade. The
items-only version has
`items(params) { return firstValueFrom(itemsChanges(params, { emitPartial: false })) }`
with no default value, while the items+annotations version has
`firstValueFrom(itemsChanges(params, { emitPartial: false }), { defaultValue: [] })`.
`firstValueFrom` without a default rejects with rxjs's `EmptyError` when the
observable completes without emitting. The combined stream built by
`itemsChanges` is abstracted as the list of snapshots it emits (empty when,
e.g., the host's configuration observable completes without a value). -/

/-- rxjs `EmptyError`. -/
inductive EmptyErrorKind where
  | emptyError
deriving DecidableEq, Repr

/-- rxjs `firstValueFrom`: resolve with the first emitted value; when the
source completes without a value, resolve with the configured `defaultValue`
if one was given, otherwise reject with `EmptyError`. A terminating stream is
modelled by its emission list. -/
def firstValueFrom (emissions : List α) (defaultValue : Option α) :
    Except EmptyErrorKind α :=
  match emissions with
  | v :: _ => .ok v
  | [] =>
    match defaultValue with
    | some d => .ok d
    | none => .error .emptyError

/-- `Client.items` of the items-only facade version: subscribe with
`emitPartial = false`, no default value. -/
def clientItemsPull_v1 (itemsChanges : ItemsParams → Bool → List (List Item))
    (params : ItemsParams) : Except EmptyErrorKind (List Item) :=
  firstValueFrom (itemsChanges params false) none

/-- `Client.items` of the items+annotations facade version: subscribe with
`emitPartial = false` and `{ defaultValue: [] }`. -/
def clientItemsPull_v2 (itemsChanges : ItemsParams → Bool → List (List Item))
    (params : ItemsParams) : Except EmptyErrorKind (List Item) :=
  firstValueFrom (itemsChanges params false) (some [])

/-- C6 counterexample: for the items-only facade version, when the combined
stream completes without ever emitting, `items` rejects with `EmptyError`
instead of resolving to the empty list, contradicting the claim as stated. -/
theorem c6_counterexample_v1_rejects_on_empty :
    clientItemsPull_v1 (fun _ _ => []) (ItemsParams.mk "file:///a.ts" "x") =
      .error .emptyError ∧
    clientItemsPull_v1 (fun _ _ => []) (ItemsParams.mk "file:///a.ts" "x") ≠ .ok [] := by
  refine ⟨rfl, fun hcontra => ?_⟩
  simp [clientItemsPull_v1, firstValueFrom] at hcontra

/-- C6 amended: both versions of the pull-style `items` subscribe with
`emitPartial = false` and resolve to the stream's first emitted value; when
the stream completes without producing a value, the items+annotations
version (which passes `defaultValue: []`) resolves to the empty list, while
the items-only version rejects with `EmptyError`. -/
theorem c6_amended_pull_semantics (itemsChanges : ItemsParams → Bool → List (List Item))
    (params : ItemsParams) :
    (∀ v t, itemsChanges params false = v :: t →
      clientItemsPull_v1 itemsChanges params = .ok v ∧
      clientItemsPull_v2 itemsChanges params = .ok v) ∧
    (itemsChanges params false = [] →
      clientItemsPull_v1 itemsChanges params = .error .emptyError ∧
      clientItemsPull_v2 itemsChanges params = .ok []) := by
  constructor
  · intro v t hst
    unfold clientItemsPull_v1 clientItemsPull_v2 firstValueFrom
    rw [hst]
    exact ⟨rfl, rfl⟩
  · intro hst
    unfold clientItemsPull_v1 clientItemsPull_v2 firstValueFrom
    rw [hst]
    exact ⟨rfl, rfl⟩

/-- Witness for the amended C6 at concrete inputs: a stream whose first
snapshot is a one-item list, and a stream that completes empty. -/
theorem c6_amended_pull_semantics_witness :
    (clientItemsPull_v1 (fun _ _ => [[Item.mk "t" none]]) (ItemsParams.mk "file:///a.ts" "x") =
        .ok [Item.mk "t" none] ∧
      clientItemsPull_v2 (fun _ _ => [[Item.mk "t" none]]) (ItemsParams.mk "file:///a.ts" "x") =
        .ok [Item.mk "t" none]) ∧
    (clientItemsPull_v1 (fun _ _ => []) (ItemsParams.mk "file:///b.ts" "y") =
        .error .emptyError ∧
      clientItemsPull_v2 (fun _ _ => []) (ItemsParams.mk "file:///b.ts" "y") = .ok []) :=
  ⟨(c6_amended_pull_semantics (fun _ _ => [[Item.mk "t" none]])
      (ItemsParams.mk "file:///a.ts" "x")).1 [Item.mk "t" none] [] rfl,
    (c6_amended_pull_semantics (fun _ _ => [])
      (ItemsParams.mk "file:///b.ts" "y")).2 rfl⟩

/-! ### Disposal of the facade's subscriptions (C8)

`createClient` pushes every background subscription it creates onto the
`subscriptions` array (in the source, exactly one: `debug.subscribe()`, an
empty observer), and `dispose()` unsubscribes each element of that array.
Subscription semantics are modelled explicitly: an emission of the host's
configuration stream fires only the callbacks of still-active
subscriptions. -/

/-- Host-observable effects of callbacks: log output and provider calls. -/
structure Effects where
  log : List String
  providerCalls : Nat
deriving DecidableEq, Repr

/-- A background subscription owned by the facade: its id and the effects its
callback produces on a configuration emission. -/
structure SubscriptionModel where
  id : Nat
  onConfig : ConfigurationUserInput → Effects

/-- The facade handle: the `subscriptions` array populated at construction
and the ids of currently active subscriptions. -/
structure ClientHandle where
  subscriptions : List SubscriptionModel
  active : List Nat

/-- `debug.subscribe()` from `createClient`: subscribing with an empty
observer; its callback produces no log output and no provider calls (the
debug pipeline is `map`/`distinctUntilChanged`/`shareReplay`, none of which
log or call providers). -/
def debugSubscriptionModel : SubscriptionModel :=
  ⟨0, fun _ => ⟨[], 0⟩⟩

/-- The facade right after `createClient`: the one debug subscription,
active. -/
def createClientModel : ClientHandle :=
  ⟨[debugSubscriptionModel], [0]⟩

/-- `dispose()`: `for (const sub of subscriptions) sub.unsubscribe()` — every
subscription in the array becomes inactive. -/
def disposeClient (c : ClientHandle) : ClientHandle :=
  { c with active := c.active.filter fun i => !(c.subscriptions.any fun s => s.id == i) }

/-- A configuration change after the facade was built: the callbacks of the
facade's still-active subscriptions fire; the observable outcome is their
combined effects. -/
def dispatchConfigChange (c : ClientHandle) (cfg : ConfigurationUserInput) : Effects :=
  ((c.subscriptions.filter fun s => c.active.contains s.id).map fun s => s.onConfig cfg).foldl
    (fun acc e => ⟨acc.log ++ e.log, acc.providerCalls + e.providerCalls⟩) ⟨[], 0⟩

/-- C8: after `dispose()` no subscription owned by the facade remains active,
and a subsequent configuration change produces no log output and no provider
calls attributable to the disposed client. -/
theorem c8_dispose_stops_callbacks (cfg : ConfigurationUserInput) :
    (disposeClient createClientModel).active = [] ∧
    dispatchConfigChange (disposeClient createClientModel) cfg = ⟨[], 0⟩ :=
  ⟨rfl, rfl⟩

end OpenCtx
